import Mathlib

/-!
Verification development for the request-dispatch and prompt-templating
logic of the usellm service (`packages/usellm/src/createLLMService.ts`).

The TypeScript source is shallowly embedded: the `LLMService` class
becomes a record of configuration plus pure functions; the injected
`fetch` transport becomes a function from an outbound request description
to a response; thrown errors become `Except.error`; each handler also
reports the list of outbound network calls it performed, so that
"no network call is made" is a provable statement.

JavaScript conventions carried over faithfully:
  * an optional / possibly `undefined` field is an `Option`;
  * string truthiness (`if (s)` is false for `undefined` and `""`) is
    the `strTruthy` test;
  * `body.template || ""` is `Option.getD "" ` (both `undefined` and
    `""` fall through to `""`);
  * object-map assignment `templates[id] = t` with later writes
    shadowing earlier ones is a prepended association list read by
    `List.lookup`;
  * JSON results built with `JSON.stringify` are modelled as structured
    `Json` values (serialization itself is abstracted away).
-/

/-- A JSON value, used for bodies and results whose exact serialization
the embedding abstracts away. -/
inductive Json where
  | null
  | bool (b : Bool)
  | num (q : Rat)
  | str (s : String)
  | arr (elems : List Json)
  | obj (fields : List (String × Json))

/-- `input?: string | string[]` of `LLMServiceEmbedOptions`. -/
inductive EmbedInput where
  | str (s : String)
  | list (l : List String)
deriving DecidableEq

/-- `voice_settings` of `LLMServiceSpeakOptions`. -/
structure VoiceSettings where
  stability : Rat
  similarity_boost : Rat
deriving DecidableEq

/-- A chat message: role, content, optional user id (`OpenAIMessage`). -/
structure OpenAIMessage where
  role : String
  content : String
  user : Option String := none
deriving DecidableEq

/-- `LLMServiceTemplate` from `createLLMService.ts` (lines 29-41): every
field except the id is optional. -/
structure LLMServiceTemplate where
  id : String
  systemPrompt : Option String := none
  userPrompt : Option String := none
  model : Option String := none
  temperature : Option Rat := none
  top_p : Option Rat := none
  n : Option Rat := none
  max_tokens : Option Rat := none
  presence_penalty : Option Rat := none
  frequency_penalty : Option Rat := none
  logit_bias : Option Rat := none
deriving DecidableEq

/-- The result of `{...defaultTemplate, ...(this.templates[id] || {})}`
(line 115-118): model, temperature and max_tokens always present, the
other template fields present only if the template supplied them. -/
structure MergedTemplate where
  systemPrompt : Option String
  userPrompt : Option String
  model : String
  temperature : Rat
  top_p : Option Rat
  n : Option Rat
  max_tokens : Rat
  presence_penalty : Option Rat
  frequency_penalty : Option Rat
  logit_bias : Option Rat
deriving DecidableEq

/-- The prepared upstream chat body (lines 153-165). -/
structure PreparedBody where
  messages : List OpenAIMessage
  stream : Option Bool
  user : Option String
  model : String
  temperature : Rat
  top_p : Option Rat
  n : Option Rat
  max_tokens : Rat
  presence_penalty : Option Rat
  frequency_penalty : Option Rat
  logit_bias : Option Rat
deriving DecidableEq

/-- The untyped JSON request body passed to `handle`: the `$action` tag
plus the union of all the action-specific fields.  `action = none` means
the `$action` key is absent.  `inputs` values are kept in string form
(the spec's "string form of the matching key"). -/
structure RequestBody where
  action : Option String := none
  messages : Option (List OpenAIMessage) := none
  stream : Option Bool := none
  template : Option String := none
  inputs : List (String × String) := []
  user : Option String := none
  input : Option EmbedInput := none
  model : Option String := none
  audioUrl : Option String := none
  language : Option String := none
  prompt : Option String := none
  text : Option String := none
  model_id : Option String := none
  voice_id : Option String := none
  voice_settings : Option VoiceSettings := none

/-- Modelled from the spec: `makeErrorResponse` lives in the missing
`utils.ts`; per the spec, a failure is "an error object with a message
and numeric status code".  `response` is such an error;
`genericError` is a plain `new Error(text)` carrying upstream text. -/
inductive ServiceError where
  | response (message : String) (status : Nat)
  | genericError (message : String)
deriving DecidableEq

/-- The result of a successful dispatch: raw upstream text, an opaque
event stream (chat streaming), or a JSON envelope. -/
inductive HandleResult where
  | text (s : String)
  | stream
  | json (j : Json)

/-- An outbound HTTP call, one constructor per upstream endpoint, holding
the credential and body fields the code sends. -/
inductive OutboundRequest where
  | chatReq (auth : String) (body : PreparedBody)
  | embedReq (auth : String) (input : Option EmbedInput) (user : Option String) (model : String)
  | transcribeReq (auth : String) (audioUrl : String) (model : String)
      (language : Option String) (prompt : Option String)
  | speakReq (xiApiKey : String) (voiceId : String) (text : Option String)
      (modelId : String) (voiceSettings : Option VoiceSettings)

/-- The injected transport's answer: HTTP ok flag, body text, the `data`
field of `response.json()` (embed), and the data-URL the `FileReader`
produces from `response.blob()` (speak). -/
structure HttpResponse where
  ok : Bool := true
  text : String := ""
  jsonData : Json := .null
  blobDataUrl : String := ""

/-- The injected `fetcher`. -/
abbrev Fetcher := OutboundRequest → HttpResponse

/-- A dispatch outcome paired with the outbound calls performed. -/
abbrev DispatchResult := Except ServiceError HandleResult × List OutboundRequest

/-- The `LLMService` configuration (constructor, lines 92-108), with the
constructor's defaults.  `isAllowed` is the authorization predicate's
value on the request body. -/
structure LLMServiceModel where
  templates : List (String × LLMServiceTemplate) := []
  openaiApiKey : String := ""
  elvenLabsApiKey : String := ""
  debug : Bool := false
  actions : List String := []
  isAllowed : RequestBody → Bool := fun _ => true

/-- `registerTemplate` (lines 110-112): `this.templates[template.id] = template`;
the newest registration shadows older ones. -/
def registerTemplate (svc : LLMServiceModel) (t : LLMServiceTemplate) : LLMServiceModel :=
  { svc with templates := (t.id, t) :: svc.templates }

/-- JavaScript string truthiness: `undefined` and `""` are falsy. -/
def strTruthy : Option String → Bool
  | none => false
  | some s => s != ""

/- ### Placeholder interpolation (`fillPrompt`)

Modelled from the spec: `fillPrompt` lives in the missing `utils.ts`.
Per the spec (§4.2 step 5): "a placeholder written as a double-braced
token is replaced by the string form of the matching key in the inputs
map; a key not found leaves the placeholder text unresolved (no error) —
this is a pure, side-effect-free string substitution pass over the
prompt text."  The scan walks the prompt left to right; on an opening
double brace it reads the key up to the first closing double brace,
substitutes the mapped value if the key is present, and otherwise leaves
the placeholder text verbatim. -/

/-- The substitution a closed placeholder key undergoes: the mapped
value when the key is bound in the inputs map, the placeholder text
verbatim otherwise. -/
def substKey (I : List (String × String)) (acc : List Char) : List Char :=
  match List.lookup (String.mk acc) I with
  | some v => v.data
  | none => '\x7b' :: '\x7b' :: (acc ++ ['\x7d', '\x7d'])

/-- Modelled from the spec: the single left-to-right substitution scan
over the character list of the prompt.  The first argument is the scan
state: `none` while copying plain text, `some acc` while collecting the
key of an opened placeholder.  An unterminated placeholder is emitted
verbatim. -/
def scanFill (I : List (String × String)) : Option (List Char) → List Char → List Char
  | none, [] => []
  | none, '\x7b' :: '\x7b' :: rest => scanFill I (some []) rest
  | none, c :: rest => c :: scanFill I none rest
  | some acc, [] => '\x7b' :: '\x7b' :: acc
  | some acc, '\x7d' :: '\x7d' :: rest => substKey I acc ++ scanFill I none rest
  | some acc, c :: rest => scanFill I (some (acc ++ [c])) rest

/-- Modelled from the spec: `fillPrompt` from the missing `utils.ts` —
the pure placeholder-substitution pass (spec §4.2 step 5). -/
def fillPrompt (p : String) (I : List (String × String)) : String :=
  String.mk (scanFill I none p.data)

/- ### The chat body preparation and the four action handlers -/

/-- `{...defaultTemplate, ...(this.templates[body.template || ""] || {})}`
(lines 115-118): defaults `gpt-3.5-turbo` / 200 / 0.8 overlaid with the
template's present fields; an unresolved lookup contributes nothing. -/
def mergeTemplate : Option LLMServiceTemplate → MergedTemplate
  | none =>
    { systemPrompt := none, userPrompt := none, model := "gpt-3.5-turbo",
      temperature := 0.8, top_p := none, n := none, max_tokens := 200,
      presence_penalty := none, frequency_penalty := none, logit_bias := none }
  | some t =>
    { systemPrompt := t.systemPrompt, userPrompt := t.userPrompt,
      model := t.model.getD "gpt-3.5-turbo",
      temperature := t.temperature.getD 0.8, top_p := t.top_p, n := t.n,
      max_tokens := t.max_tokens.getD 200,
      presence_penalty := t.presence_penalty,
      frequency_penalty := t.frequency_penalty, logit_bias := t.logit_bias }

/-- The template a chat request resolves to: registry lookup under
`body.template || ""` merged over the defaults. -/
def resolvedTemplate (svc : LLMServiceModel) (body : RequestBody) : MergedTemplate :=
  mergeTemplate (List.lookup (body.template.getD "") svc.templates)

/-- The message list built by `prepareChatBody` (lines 120-144): the
interpolated system prompt when truthy, then the interpolated user
prompt when truthy, then the explicit messages copied field by field. -/
def preparedMessages (svc : LLMServiceModel) (body : RequestBody) : List OpenAIMessage :=
  (if strTruthy (resolvedTemplate svc body).systemPrompt then
    [{ role := "system",
       content := fillPrompt ((resolvedTemplate svc body).systemPrompt.getD "") body.inputs,
       user := none }]
   else [])
  ++ (if strTruthy (resolvedTemplate svc body).userPrompt then
    [{ role := "user",
       content := fillPrompt ((resolvedTemplate svc body).userPrompt.getD "") body.inputs,
       user := none }]
   else [])
  ++ (body.messages.getD []).map
      (fun m => { role := m.role, content := m.content, user := m.user })

/-- `prepareChatBody` (lines 114-168): resolve the template, build the
ordered message list, reject an empty list with 400, and assemble the
prepared body. -/
def prepareChatBody (svc : LLMServiceModel) (body : RequestBody) :
    Except ServiceError PreparedBody :=
  let template := resolvedTemplate svc body
  let filledMessages := preparedMessages svc body
  if filledMessages.length = 0 then
    .error (.response "Empty message list. Please provide at least one message!" 400)
  else
    .ok { messages := filledMessages, stream := body.stream, user := body.user,
          model := template.model, temperature := template.temperature,
          top_p := template.top_p, n := template.n,
          max_tokens := template.max_tokens,
          presence_penalty := template.presence_penalty,
          frequency_penalty := template.frequency_penalty,
          logit_bias := template.logit_bias }

/-- `chat` (lines 209-238).  The streaming branch goes through
`OpenAIStream`, whose source is absent; modelled from the spec (§4.4) as
a single outbound post whose response is exposed as an opaque stream.
The non-streaming branch posts the prepared body and surfaces a
non-success status as a generic error carrying the response text. -/
def chatRun (svc : LLMServiceModel) (fetcher : Fetcher) (body : RequestBody) :
    DispatchResult :=
  match prepareChatBody svc body with
  | .error e => (.error e, [])
  | .ok pb =>
    let req := OutboundRequest.chatReq svc.openaiApiKey pb
    let resp := fetcher req
    if pb.stream = some true then
      (.ok .stream, [req])
    else if resp.ok then (.ok (.text resp.text), [req])
    else (.error (.genericError resp.text), [req])

/-- `embed` (lines 240-258): the posted model is fixed to
`text-embedding-ada-002`; a successful response's `data` is re-wrapped
under the key `embeddings`. -/
def embedRun (svc : LLMServiceModel) (fetcher : Fetcher) (body : RequestBody) :
    DispatchResult :=
  let req := OutboundRequest.embedReq svc.openaiApiKey body.input body.user
    "text-embedding-ada-002"
  let resp := fetcher req
  if resp.ok then (.ok (.json (.obj [("embeddings", resp.jsonData)])), [req])
  else (.error (.genericError resp.text), [req])

/-- `transcribe` (lines 260-292): requires a truthy `audioUrl`
(the data-URL decoding of the missing `dataURLToBlob` is abstracted to
the URL itself); the form carries model `whisper-1` and the language and
prompt fields only when truthy. -/
def transcribeRun (svc : LLMServiceModel) (fetcher : Fetcher) (body : RequestBody) :
    DispatchResult :=
  if strTruthy body.audioUrl then
    let req := OutboundRequest.transcribeReq svc.openaiApiKey (body.audioUrl.getD "")
      "whisper-1"
      (if strTruthy body.language then body.language else none)
      (if strTruthy body.prompt then body.prompt else none)
    let resp := fetcher req
    if resp.ok then (.ok (.text resp.text), [req])
    else (.error (.genericError resp.text), [req])
  else (.error (.response "'audioUrl' is required" 400), [])

/-- `speak` (lines 294-326): destructuring defaults for `model_id` and
`voice_id`, the ElevenLabs key in the `xi-api-key` header, and the
response blob returned as a data URL under the key `audioUrl`. -/
def speakRun (svc : LLMServiceModel) (fetcher : Fetcher) (body : RequestBody) :
    DispatchResult :=
  let modelId := body.model_id.getD "eleven_monolingual_v1"
  let voiceId := body.voice_id.getD "21m00Tcm4TlvDq8ikWAM"
  let req := OutboundRequest.speakReq svc.elvenLabsApiKey voiceId body.text modelId
    body.voice_settings
  let resp := fetcher req
  if resp.ok then (.ok (.json (.obj [("audioUrl", .str resp.blobDataUrl)])), [req])
  else (.error (.genericError resp.text), [req])

/-- The action routing of `handle` (lines 189-206): allow-list check,
then the four-way route, with a final unsupported-action 400. -/
def dispatchAction (svc : LLMServiceModel) (fetcher : Fetcher) (body : RequestBody)
    (a : String) : DispatchResult :=
  if 0 < svc.actions.length ∧ a ∉ svc.actions then
    (.error (.response ("Action \"" ++ a ++ "\" is not supported") 400), [])
  else if a = "chat" then chatRun svc fetcher body
  else if a = "transcribe" then transcribeRun svc fetcher body
  else if a = "embed" then embedRun svc fetcher body
  else if a = "speak" then speakRun svc fetcher body
  else (.error (.response ("Action \"" ++ a ++ "\" is not supported") 400), [])

/-- `handle` (lines 170-207): authorization predicate (405), OpenAI key
requirement (400), `$action` presence (400), then the action routing. -/
def handle (svc : LLMServiceModel) (fetcher : Fetcher) (body : RequestBody) :
    DispatchResult :=
  if svc.isAllowed body = true then
    if svc.openaiApiKey = "" then
      (.error (.response "OpenAI API key is required." 400), [])
    else
      match body.action with
      | none => (.error (.response "`handle` expects a key $action in the body" 400), [])
      | some a => dispatchAction svc fetcher body a
  else (.error (.response "Request not allowed" 405), [])

/- ### A compositional description of prompts for the interpolation claim

A prompt is viewed as a concatenation of pieces: literal chunks (free of
opening braces) and double-braced placeholders (keys free of braces).
Interpolation acts piecewise: literals are untouched, a placeholder is
replaced by the mapped value when its key is bound and kept verbatim
otherwise. -/

/-- A syntactic piece of a prompt: a literal chunk or a `\x7b\x7bk\x7d\x7d`
placeholder. -/
inductive Piece where
  | lit (s : String)
  | ph (k : String)

/-- The concrete text of a piece. -/
def renderPiece : Piece → String
  | .lit s => s
  | .ph k => "\x7b\x7b" ++ k ++ "\x7d\x7d"

/-- What the spec says interpolation does to one piece: literals are
kept; a placeholder becomes the mapped value if its key is bound in the
inputs map and stays verbatim otherwise. -/
def fillPiece (I : List (String × String)) : Piece → String
  | .lit s => s
  | .ph k =>
    match List.lookup k I with
    | some v => v
    | none => "\x7b\x7b" ++ k ++ "\x7d\x7d"

/-- Well-formedness: literal chunks contain no opening brace; placeholder
keys contain no brace of either kind. -/
def WFPiece : Piece → Prop
  | .lit s => '\x7b' ∉ s.data
  | .ph k => '\x7b' ∉ k.data ∧ '\x7d' ∉ k.data

instance : DecidablePred WFPiece := fun p =>
  match p with
  | .lit s => inferInstanceAs (Decidable ('\x7b' ∉ s.data))
  | .ph k => inferInstanceAs (Decidable ('\x7b' ∉ k.data ∧ '\x7d' ∉ k.data))

/-- Concatenation of the texts of a list of strings. -/
def concatAll : List String → String
  | [] => ""
  | s :: rest => s ++ concatAll rest

theorem scanFill_copy_of_ne (I : List (String × String)) (c : Char) (rest : List Char)
    (h : ¬ c = '\x7b') : scanFill I none (c :: rest) = c :: scanFill I none rest := by
  rw [scanFill.eq_def]
  split <;> simp_all

theorem scanFill_key_of_ne (I : List (String × String)) (acc : List Char) (c : Char)
    (rest : List Char) (h : ¬ c = '\x7d') :
    scanFill I (some acc) (c :: rest) = scanFill I (some (acc ++ [c])) rest := by
  rw [scanFill.eq_def]
  split <;> simp_all

theorem scanFill_lit (I : List (String × String)) {l : List Char}
    (hl : '\x7b' ∉ l) (t : List Char) :
    scanFill I none (l ++ t) = l ++ scanFill I none t := by
  induction l with
  | nil => simp
  | cons c l' ih =>
    have hc : ¬ c = '\x7b' := fun h => hl (h ▸ List.mem_cons_self c l')
    have hl' : '\x7b' ∉ l' := fun h => hl (List.mem_cons_of_mem c h)
    rw [List.cons_append, scanFill_copy_of_ne I c _ hc, ih hl', List.cons_append]

theorem scanFill_key (I : List (String × String)) {k : List Char} (acc t : List Char)
    (hk : '\x7d' ∉ k) :
    scanFill I (some acc) (k ++ '\x7d' :: '\x7d' :: t) =
      substKey I (acc ++ k) ++ scanFill I none t := by
  induction k generalizing acc with
  | nil => simp [scanFill]
  | cons c k' ih =>
    have hc : ¬ c = '\x7d' := fun h => hk (h ▸ List.mem_cons_self c k')
    have hk' : '\x7d' ∉ k' := fun h => hk (List.mem_cons_of_mem c h)
    rw [List.cons_append, scanFill_key_of_ne I acc c _ hc, ih (acc ++ [c]) hk']
    simp

theorem scanFill_placeholder (I : List (String × String)) (k t : List Char)
    (hk : '\x7d' ∉ k) :
    scanFill I none ('\x7b' :: '\x7b' :: (k ++ '\x7d' :: '\x7d' :: t)) =
      substKey I k ++ scanFill I none t := by
  have h2 : scanFill I none ('\x7b' :: '\x7b' :: (k ++ '\x7d' :: '\x7d' :: t)) =
      scanFill I (some []) (k ++ '\x7d' :: '\x7d' :: t) := by
    rw [scanFill]
  rw [h2, scanFill_key I [] t hk]
  simp

theorem scanFill_concatAll (I : List (String × String)) (ps : List Piece)
    (h : ∀ p ∈ ps, WFPiece p) :
    scanFill I none (concatAll (ps.map renderPiece)).data =
      (concatAll (ps.map (fillPiece I))).data := by
  induction ps with
  | nil => simp [concatAll, scanFill]
  | cons p ps ih =>
    have hp : WFPiece p := h p (List.mem_cons_self p ps)
    have hps : ∀ q ∈ ps, WFPiece q := fun q hq => h q (List.mem_cons_of_mem p hq)
    cases p with
    | lit s =>
      simp only [concatAll, List.map_cons, String.data_append, renderPiece, fillPiece]
      rw [scanFill_lit I hp, ih hps]
    | ph k =>
      obtain ⟨hk1, hk2⟩ := hp
      simp only [concatAll, List.map_cons, String.data_append, renderPiece]
      have hshape :
          ("\x7b\x7b".data ++ k.data) ++ "\x7d\x7d".data ++
              (concatAll (ps.map renderPiece)).data =
            '\x7b' :: '\x7b' ::
              (k.data ++ '\x7d' :: '\x7d' :: (concatAll (ps.map renderPiece)).data) := by
        simp
      rw [hshape, scanFill_placeholder I k.data _ hk2, ih hps]
      rw [substKey, show String.mk k.data = k from rfl]
      cases hlk : List.lookup k I with
      | some v => simp [fillPiece, hlk]
      | none => simp [fillPiece, hlk]

/- ### Shared helper lemmas -/

/-- Copying a message field by field is the identity. -/
theorem copy_messages_id (l : List OpenAIMessage) :
    l.map (fun m => { role := m.role, content := m.content, user := m.user : OpenAIMessage })
      = l := by
  induction l with
  | nil => rfl
  | cons m l ih => simp [ih]

/-- The only error `prepareChatBody` can produce is the empty-message 400. -/
theorem prepareChatBody_error_eq {svc : LLMServiceModel} {body : RequestBody}
    {e : ServiceError} (h : prepareChatBody svc body = .error e) :
    e = .response "Empty message list. Please provide at least one message!" 400 := by
  simp only [prepareChatBody] at h
  split at h
  · injection h with h'
    exact h'.symm
  · exact absurd h (by simp)

/-- An allow-list that is empty or contains the action never triggers the
allow-list rejection. -/
theorem allowlist_pass {svc : LLMServiceModel} {a : String}
    (h : svc.actions = [] ∨ a ∈ svc.actions) :
    ¬ (0 < svc.actions.length ∧ a ∉ svc.actions) := by
  rcases h with h | h
  · simp [h]
  · simp [h]

/- ### Claim theorems -/

/-- Claim C6: whenever the authorization predicate returns false, `handle`
rejects with status 405, before and regardless of every other check
(missing credential, missing `$action`, allow-list). -/
theorem claim6_authorization_precedence (svc : LLMServiceModel) (fetcher : Fetcher)
    (body : RequestBody) (h : svc.isAllowed body = false) :
    handle svc fetcher body = (.error (.response "Request not allowed" 405), []) := by
  rw [handle, if_neg (by simp [h])]

/-- Witness for C6: a request that would also fail the credential check,
the `$action` check and the allow-list check is still rejected 405. -/
theorem claim6_witness :
    handle { openaiApiKey := "", actions := ["chat"], isAllowed := fun _ => false }
      (fun _ => {}) { action := none } =
      (.error (.response "Request not allowed" 405), []) :=
  claim6_authorization_precedence _ _ _ rfl

/-- Claim C5: an `$action` outside a non-empty allow-list is rejected with
a 400 before any handler runs: the outcome is the unsupported-action
error and the list of outbound calls is empty, even though a handler for
the action may exist. -/
theorem claim5_allowlist_rejects_before_handler (svc : LLMServiceModel)
    (fetcher : Fetcher) (body : RequestBody) (a : String)
    (hA : svc.isAllowed body = true) (hK : ¬ svc.openaiApiKey = "")
    (hAct : body.action = some a) (hNE : 0 < svc.actions.length)
    (hNI : a ∉ svc.actions) :
    handle svc fetcher body =
      (.error (.response ("Action \"" ++ a ++ "\" is not supported") 400), []) := by
  simp [handle, dispatchAction, hA, hK, hAct, hNE, hNI]

/-- Witness for C5: allow-list `["chat"]`, body `$action = "embed"` —
400 failure, embeddings endpoint never called. -/
theorem claim5_witness :
    handle { openaiApiKey := "sk", actions := ["chat"] } (fun _ => {})
      { action := some "embed", input := some (.str "hi") } =
      (.error (.response ("Action \"" ++ "embed" ++ "\" is not supported") 400), []) :=
  claim5_allowlist_rejects_before_handler _ _ _ "embed" rfl (by decide) rfl
    (by decide) (by decide)

/-- Claim C2: a chat request whose explicit message list is empty or
absent and whose resolved template has neither system prompt nor user
prompt fails with the 400 validation error, and the injected fetcher is
never invoked (the outbound-call list is empty). -/
theorem claim2_empty_messages_rejected_before_network (svc : LLMServiceModel)
    (fetcher : Fetcher) (body : RequestBody)
    (hA : svc.isAllowed body = true) (hK : ¬ svc.openaiApiKey = "")
    (hAct : body.action = some "chat")
    (hAllow : svc.actions = [] ∨ "chat" ∈ svc.actions)
    (hMsgs : body.messages = none ∨ body.messages = some [])
    (hSys : (resolvedTemplate svc body).systemPrompt = none)
    (hUsr : (resolvedTemplate svc body).userPrompt = none) :
    handle svc fetcher body =
      (.error (.response "Empty message list. Please provide at least one message!" 400),
       []) := by
  have hMsgs' : body.messages.getD [] = [] := by rcases hMsgs with h | h <;> simp [h]
  have hPrep : prepareChatBody svc body =
      .error (.response "Empty message list. Please provide at least one message!" 400) := by
    simp [prepareChatBody, preparedMessages, hSys, hUsr, strTruthy, hMsgs']
  simp [handle, dispatchAction, hA, hK, hAct, allowlist_pass hAllow, chatRun, hPrep]

/-- Witness for C2: no messages, a resolved template with no prompts —
400, no network call. -/
theorem claim2_witness :
    handle { openaiApiKey := "sk" } (fun _ => {}) { action := some "chat" } =
      (.error (.response "Empty message list. Please provide at least one message!" 400),
       []) :=
  claim2_empty_messages_rejected_before_network _ _ _ rfl (by decide) rfl
    (Or.inl rfl) (Or.inl rfl) rfl rfl

/-- Claim C3: when the template id does not resolve in the registry, the
lookup itself never throws — `prepareChatBody` is the total function
below — and the prepared body carries exactly the fixed defaults
(`gpt-3.5-turbo`, 200 max tokens, temperature 0.8) merged with only the
request's own fields (messages, stream, user); every other generation
parameter is absent (no contamination from any registered template). -/
theorem claim3_unknown_template_no_contamination (svc : LLMServiceModel)
    (body : RequestBody)
    (h : List.lookup (body.template.getD "") svc.templates = none) :
    prepareChatBody svc body =
      if body.messages.getD [] = [] then
        .error (.response "Empty message list. Please provide at least one message!" 400)
      else
        .ok { messages := body.messages.getD [], stream := body.stream, user := body.user,
              model := "gpt-3.5-turbo", temperature := 0.8, top_p := none, n := none,
              max_tokens := 200, presence_penalty := none, frequency_penalty := none,
              logit_bias := none } := by
  simp only [prepareChatBody, preparedMessages, resolvedTemplate, h, mergeTemplate,
    strTruthy, copy_messages_id]
  simp [List.length_eq_zero]

/-- Witness for C3: a registered template full of overrides is not
consulted when the request names an unknown id. -/
theorem claim3_witness :
    prepareChatBody
      { templates := [("t1",
          { id := "t1", systemPrompt := some "SYS", model := some "gpt-4",
            temperature := some 0, max_tokens := some 999, top_p := some 1 })],
        openaiApiKey := "sk" }
      { action := some "chat", template := some "zzz",
        messages := some [{ role := "user", content := "hi" }] } =
      .ok { messages := [{ role := "user", content := "hi" }], stream := none,
            user := none, model := "gpt-3.5-turbo", temperature := 0.8, top_p := none,
            n := none, max_tokens := 200, presence_penalty := none,
            frequency_penalty := none, logit_bias := none } := by
  rw [claim3_unknown_template_no_contamination _ _ (by decide)]
  rfl

/-- Claim C4: the prepared message sequence is, in order: the
interpolated system prompt (when the resolved template has one), the
interpolated user prompt (when it has one), then every explicit message
in original order with role, content and optional user id copied
verbatim and no interpolation applied. -/
theorem claim4_message_order (svc : LLMServiceModel) (body : RequestBody)
    (pb : PreparedBody) (h : prepareChatBody svc body = .ok pb) :
    pb.messages =
      (if strTruthy (resolvedTemplate svc body).systemPrompt then
        [{ role := "system",
           content := fillPrompt ((resolvedTemplate svc body).systemPrompt.getD "")
             body.inputs, user := none }]
       else [])
      ++ (if strTruthy (resolvedTemplate svc body).userPrompt then
        [{ role := "user",
           content := fillPrompt ((resolvedTemplate svc body).userPrompt.getD "")
             body.inputs, user := none }]
       else [])
      ++ body.messages.getD [] := by
  simp only [prepareChatBody] at h
  split at h
  · exact absurd h (by simp)
  · injection h with h'
    rw [← h']
    simp [preparedMessages, copy_messages_id]

/-- Witness for C4 (spec scenario 7): template `t1` with system prompt
`You are \x7b\x7bname\x7d\x7d`, inputs `name = Bot`, no explicit
messages — the prepared messages are exactly one system message
`You are Bot`. -/
theorem claim4_witness :
    ∃ pb, prepareChatBody
      { templates := [("t1", { id := "t1", systemPrompt := some "You are \x7b\x7bname\x7d\x7d" })],
        openaiApiKey := "sk" }
      { action := some "chat", template := some "t1", inputs := [("name", "Bot")] } = .ok pb
    ∧ pb.messages = [{ role := "system", content := "You are Bot", user := none }] :=
  ⟨_, rfl,
    (claim4_message_order
      { templates := [("t1", { id := "t1", systemPrompt := some "You are \x7b\x7bname\x7d\x7d" })],
        openaiApiKey := "sk" }
      { action := some "chat", template := some "t1", inputs := [("name", "Bot")] }
      _ rfl).trans (by decide)⟩

/-- Claim C7: placeholder interpolation is a pure string substitution:
over any prompt assembled from literal chunks and double-braced
placeholders, every placeholder whose key is bound in the inputs map is
replaced by the mapped string value, and every placeholder whose key is
absent is left verbatim; no error is possible (the function is total). -/
theorem claim7_interpolation (I : List (String × String)) (ps : List Piece)
    (h : ∀ p ∈ ps, WFPiece p) :
    fillPrompt (concatAll (ps.map renderPiece)) I = concatAll (ps.map (fillPiece I)) := by
  rw [fillPrompt, scanFill_concatAll I ps h]

/-- Witness for C7: `You are \x7b\x7bname\x7d\x7d! \x7b\x7bmissing\x7d\x7d`
with `name = Bot` becomes `You are Bot! \x7b\x7bmissing\x7d\x7d`. -/
theorem claim7_witness :
    fillPrompt "You are \x7b\x7bname\x7d\x7d! \x7b\x7bmissing\x7d\x7d" [("name", "Bot")] =
      "You are Bot! \x7b\x7bmissing\x7d\x7d" := by
  have h := claim7_interpolation [("name", "Bot")]
    [.lit "You are ", .ph "name", .lit "! ", .ph "missing"] (by decide)
  rw [show concatAll (List.map renderPiece
      [.lit "You are ", .ph "name", .lit "! ", .ph "missing"]) =
      "You are \x7b\x7bname\x7d\x7d! \x7b\x7bmissing\x7d\x7d" by decide] at h
  rw [h]
  decide

/-- Claim C8: a non-streaming chat request whose upstream response has a
non-success status is rejected with an error whose message equals the
upstream response body text (a generic error, not a result). -/
theorem claim8_upstream_error_text (svc : LLMServiceModel) (fetcher : Fetcher)
    (body : RequestBody) (pb : PreparedBody)
    (hA : svc.isAllowed body = true) (hK : ¬ svc.openaiApiKey = "")
    (hAct : body.action = some "chat")
    (hAllow : svc.actions = [] ∨ "chat" ∈ svc.actions)
    (hPrep : prepareChatBody svc body = .ok pb)
    (hStream : ¬ pb.stream = some true)
    (hResp : (fetcher (.chatReq svc.openaiApiKey pb)).ok = false) :
    handle svc fetcher body =
      (.error (.genericError (fetcher (.chatReq svc.openaiApiKey pb)).text),
       [.chatReq svc.openaiApiKey pb]) := by
  simp [handle, dispatchAction, hA, hK, hAct, allowlist_pass hAllow, chatRun, hPrep, hStream, hResp]

/-- Witness for C8: upstream replies 401-style with body text
`Unauthorized` — the dispatch error carries exactly that text. -/
theorem claim8_witness :
    handle { openaiApiKey := "sk" }
      (fun _ => { ok := false, text := "Unauthorized" })
      { action := some "chat", messages := some [{ role := "user", content := "hi" }] } =
      (.error (.genericError "Unauthorized"),
       [.chatReq "sk"
          { messages := [{ role := "user", content := "hi", user := none }],
            stream := none, user := none, model := "gpt-3.5-turbo", temperature := 0.8,
            top_p := none, n := none, max_tokens := 200, presence_penalty := none,
            frequency_penalty := none, logit_bias := none }]) :=
  claim8_upstream_error_text _ _ _ _ rfl (by decide) rfl (Or.inl rfl) rfl
    (by decide) rfl

/-- Claim C9: an embed request posts exactly one request to the
embeddings endpoint whose model is fixed to `text-embedding-ada-002`
regardless of the request's own `model` field, and on upstream success
the result re-wraps the upstream `data` under the fixed key
`embeddings`. -/
theorem claim9_embed_fixed_model_and_rewrap (svc : LLMServiceModel) (fetcher : Fetcher)
    (body : RequestBody)
    (hA : svc.isAllowed body = true) (hK : ¬ svc.openaiApiKey = "")
    (hAct : body.action = some "embed")
    (hAllow : svc.actions = [] ∨ "embed" ∈ svc.actions) :
    (handle svc fetcher body).2 =
      [.embedReq svc.openaiApiKey body.input body.user "text-embedding-ada-002"]
    ∧ ((fetcher (.embedReq svc.openaiApiKey body.input body.user
          "text-embedding-ada-002")).ok = true →
        (handle svc fetcher body).1 =
          .ok (.json (.obj [("embeddings",
            (fetcher (.embedReq svc.openaiApiKey body.input body.user
              "text-embedding-ada-002")).jsonData)]))) := by
  have hh : handle svc fetcher body = embedRun svc fetcher body := by
    simp [handle, dispatchAction, hA, hK, hAct, allowlist_pass hAllow]
  rw [hh]
  constructor
  · simp only [embedRun]
    split <;> rfl
  · intro hok
    simp [embedRun, hok]

/-- Witness for C9: the request supplies `model := "gpt-4"` yet the
posted model is `text-embedding-ada-002`, and the upstream `data` comes
back wrapped under `embeddings`. -/
theorem claim9_witness :
    (handle { openaiApiKey := "sk" } (fun _ => { jsonData := Json.arr [] })
      { action := some "embed", input := some (.str "hello"), model := some "gpt-4" }).2 =
      [.embedReq "sk" (some (.str "hello")) none "text-embedding-ada-002"]
    ∧ (handle { openaiApiKey := "sk" } (fun _ => { jsonData := Json.arr [] })
      { action := some "embed", input := some (.str "hello"), model := some "gpt-4" }).1 =
      .ok (.json (.obj [("embeddings", Json.arr [])])) :=
  ⟨(claim9_embed_fixed_model_and_rewrap _ _ _ rfl (by decide) rfl (Or.inl rfl)).1,
   (claim9_embed_fixed_model_and_rewrap _ _ _ rfl (by decide) rfl (Or.inl rfl)).2 rfl⟩

/-- Claim C10: an absent template id and the empty-string template id
resolve identically (`body.template || ""` collapses both to `""`
before the registry lookup), so a template registered under the id `""`
is applied to every chat request that supplies no template id. -/
theorem claim10_empty_template_id (svc : LLMServiceModel) (t : LLMServiceTemplate)
    (body : RequestBody) (hid : t.id = "") :
    prepareChatBody svc { body with template := none } =
      prepareChatBody svc { body with template := some "" }
    ∧ resolvedTemplate (registerTemplate svc t) { body with template := none } =
        mergeTemplate (some t) := by
  constructor
  · rfl
  · simp [resolvedTemplate, registerTemplate, hid, List.lookup]

/-- Witness for C10: a template with id `""` and a system prompt is the
one a template-less chat request resolves to. -/
theorem claim10_witness :
    prepareChatBody { openaiApiKey := "sk" }
      { ({ action := some "chat" } : RequestBody) with template := none } =
      prepareChatBody { openaiApiKey := "sk" }
        { ({ action := some "chat" } : RequestBody) with template := some "" }
    ∧ resolvedTemplate
        (registerTemplate { openaiApiKey := "sk" } { id := "", systemPrompt := some "S" })
        { ({ action := some "chat" } : RequestBody) with template := none } =
        mergeTemplate (some { id := "", systemPrompt := some "S" })
    ∧ (mergeTemplate (some ({ id := "", systemPrompt := some "S" } : LLMServiceTemplate))).systemPrompt
        = some "S" :=
  ⟨(claim10_empty_template_id { openaiApiKey := "sk" } { id := "", systemPrompt := some "S" }
      { action := some "chat" } rfl).1,
   (claim10_empty_template_id { openaiApiKey := "sk" } { id := "", systemPrompt := some "S" }
      { action := some "chat" } rfl).2,
   rfl⟩

/- ### Error-shape lemmas for the credential claim -/

theorem action_message_ne (a : String) :
    ¬ ("Action \"" ++ a ++ "\" is not supported" = "OpenAI API key is required.") := by
  intro h
  have h2 := congrArg String.data h
  simp only [String.data_append] at h2
  have h3 := congrArg List.head? h2
  rw [List.head?_append, List.head?_append] at h3
  rw [show ("Action \"" : String).data.head? = some 'A' from rfl] at h3
  rw [show ("OpenAI API key is required." : String).data.head? = some 'O' from rfl] at h3
  simp at h3

/-- A `speak` dispatch can only fail with a generic upstream error; it
performs no credential or validation check of its own. -/
theorem speakRun_error_shape (svc : LLMServiceModel) (fetcher : Fetcher)
    (body : RequestBody) (e : ServiceError)
    (h : (speakRun svc fetcher body).1 = .error e) : ∃ m, e = .genericError m := by
  simp only [speakRun] at h
  split at h
  · simp at h
  · simp only [Except.error.injEq] at h
    exact ⟨_, h.symm⟩

theorem embedRun_error_shape (svc : LLMServiceModel) (fetcher : Fetcher)
    (body : RequestBody) (e : ServiceError)
    (h : (embedRun svc fetcher body).1 = .error e) : ∃ m, e = .genericError m := by
  simp only [embedRun] at h
  split at h
  · simp at h
  · simp only [Except.error.injEq] at h
    exact ⟨_, h.symm⟩

theorem transcribeRun_error_shape (svc : LLMServiceModel) (fetcher : Fetcher)
    (body : RequestBody) (e : ServiceError)
    (h : (transcribeRun svc fetcher body).1 = .error e) :
    e = .response "'audioUrl' is required" 400 ∨ ∃ m, e = .genericError m := by
  simp only [transcribeRun] at h
  repeat' split at h
  all_goals first
    | (injection h with h'
       exact Or.inr ⟨_, h'.symm⟩)
    | (injection h with h'
       exact Or.inl h'.symm)
    | injection h

theorem chatRun_error_shape (svc : LLMServiceModel) (fetcher : Fetcher)
    (body : RequestBody) (e : ServiceError)
    (h : (chatRun svc fetcher body).1 = .error e) :
    e = .response "Empty message list. Please provide at least one message!" 400
      ∨ ∃ m, e = .genericError m := by
  cases hp : prepareChatBody svc body with
  | error e' =>
    simp only [chatRun, hp] at h
    injection h with h'
    exact Or.inl (h' ▸ prepareChatBody_error_eq hp)
  | ok pb =>
    simp only [chatRun, hp] at h
    repeat' split at h
    all_goals first
      | (injection h with h'
         exact Or.inr ⟨_, h'.symm⟩)
      | injection h

/-- Counterexample for C1 as stated: with the OpenAI key present and the
ElevenLabs key absent, a speak request is *not* rejected with a 400
configuration error — it succeeds; and with the OpenAI key absent (and
the ElevenLabs key present), a speak request *is* rejected with the
OpenAI 400 configuration error. -/
theorem claim1_counterexample :
    ({ openaiApiKey := "sk", elvenLabsApiKey := "" } : LLMServiceModel).elvenLabsApiKey = ""
    ∧ (handle { openaiApiKey := "sk", elvenLabsApiKey := "" }
        (fun _ => { blobDataUrl := "data:audio/mpeg;base64,AAA" })
        { action := some "speak", text := some "hi" }).1 =
        .ok (.json (.obj [("audioUrl", .str "data:audio/mpeg;base64,AAA")]))
    ∧ (handle { openaiApiKey := "", elvenLabsApiKey := "el" } (fun _ => {})
        { action := some "speak", text := some "hi" }).1 =
        .error (.response "OpenAI API key is required." 400) :=
  ⟨rfl, rfl, rfl⟩

/-- Claim C1 (amended): for every authorized request, `handle` rejects
with the 400 configuration error exactly when the OpenAI credential is
absent — for chat, embed and transcribe but also for speak; the
ElevenLabs credential is never checked: a speak request that passes the
authorization, credential and allow-list checks is dispatched to the
speak handler, whose only possible failure is the upstream generic
error, whatever the ElevenLabs credential. -/
theorem claim1_openai_key_required_for_all_actions (svc : LLMServiceModel)
    (fetcher : Fetcher) (body : RequestBody) (hA : svc.isAllowed body = true) :
    (svc.openaiApiKey = "" →
      handle svc fetcher body = (.error (.response "OpenAI API key is required." 400), []))
    ∧ ((handle svc fetcher body).1 = .error (.response "OpenAI API key is required." 400) →
        svc.openaiApiKey = "")
    ∧ (¬ svc.openaiApiKey = "" → body.action = some "speak" →
        (svc.actions = [] ∨ "speak" ∈ svc.actions) →
        handle svc fetcher body = speakRun svc fetcher body
        ∧ ∀ e, (speakRun svc fetcher body).1 = .error e → ∃ m, e = .genericError m) := by
  refine ⟨fun hk => by simp [handle, hA, hk], ?_,
    fun hk hAct hAllow =>
      ⟨by simp [handle, dispatchAction, hA, hk, hAct, allowlist_pass hAllow],
       fun e he => speakRun_error_shape svc fetcher body e he⟩⟩
  intro h
  by_contra hk
  rw [handle, if_pos hA, if_neg hk] at h
  cases hact : body.action with
  | none =>
    rw [hact] at h
    injection h with h'
    injection h' with hmsg hstat
    exact absurd hmsg (by decide)
  | some a =>
    rw [hact] at h
    have h2 : (dispatchAction svc fetcher body a).1 =
        .error (.response "OpenAI API key is required." 400) := h
    rw [dispatchAction] at h2
    by_cases hlist : 0 < svc.actions.length ∧ a ∉ svc.actions
    · rw [if_pos hlist] at h2
      injection h2 with h'
      injection h' with hmsg hstat
      exact action_message_ne a hmsg
    · rw [if_neg hlist] at h2
      by_cases hc : a = "chat"
      · rw [if_pos hc] at h2
        rcases chatRun_error_shape svc fetcher body _ h2 with h1 | ⟨m, h1⟩
        · exact absurd h1 (by decide)
        · injection h1
      · rw [if_neg hc] at h2
        by_cases htr : a = "transcribe"
        · rw [if_pos htr] at h2
          rcases transcribeRun_error_shape svc fetcher body _ h2 with h1 | ⟨m, h1⟩
          · exact absurd h1 (by decide)
          · injection h1
        · rw [if_neg htr] at h2
          by_cases hem : a = "embed"
          · rw [if_pos hem] at h2
            obtain ⟨m, h1⟩ := embedRun_error_shape svc fetcher body _ h2
            injection h1
          · rw [if_neg hem] at h2
            by_cases hsp : a = "speak"
            · rw [if_pos hsp] at h2
              obtain ⟨m, h1⟩ := speakRun_error_shape svc fetcher body _ h2
              injection h1
            · rw [if_neg hsp] at h2
              injection h2 with h'
              injection h' with hmsg hstat
              exact action_message_ne a hmsg

/-- Witness for C1 (amended): a speak request with the OpenAI key absent
is rejected with the OpenAI 400 configuration error. -/
theorem claim1_witness :
    handle ({ openaiApiKey := "" } : LLMServiceModel) (fun _ => {})
      { action := some "speak", text := some "hi" } =
      (.error (.response "OpenAI API key is required." 400), []) :=
  (claim1_openai_key_required_for_all_actions _ _ _ rfl).1 rfl
